import Mathlib

/-!
# ParlCards — verification of the cache / metrics / warmup layers

Shallow embedding of the Python sources under `app/`:

* `app/cache/manager.py`   — `CacheEntry.read`, `read_stale`, `write`, `is_expired`
* `app/metrics/percentiles.py` — `get_percentile`, `compute_percentiles_for_mp`,
  `filter_table_by_group`, `compute_distributions_for_mp`
* `app/metrics/attendance.py`  — `compute_attendance`
* `app/metrics/party_loyalty.py` — `compute_party_loyalty`
* `app/api/speeches.py` — `fetch_politician_speeches`, `fetch_speech_count`
* `app/cache/warmup.py` — `background_warmup` (per-entity network-fetch trace)

Machine conventions: Python numbers are embedded as `ℚ` (or `ℤ`/`ℕ` where the
code only ever holds integers), timestamps as integer seconds (`ℤ`), Python
exceptions as an explicit `Except` error channel, and JSON documents as an
inductive `Json` tree.
-/

namespace ParlCards

/-! ## JSON values

A JSON document as produced by `json.loads` / consumed by `json.dumps`.
Strings that are valid ISO-8601 timestamps (the only kind this code base ever
feeds to `datetime.fromisoformat`) are represented by their parsed value via
the constructor `Json.time`; `Json.str` covers all other strings.
`datetime.fromisoformat` succeeds exactly on the former and is strictly
monotone in the instant, which the integer embedding preserves.
-/
inductive Json : Type where
  | null : Json
  | bool (b : Bool) : Json
  | num (n : ℤ) : Json
  | str (s : String) : Json
  | time (t : ℤ) : Json
  | arr (elems : List Json) : Json
  | obj (fields : List (String × Json)) : Json

/-- Python exception classes that `CacheEntry.read` / `read_stale` can raise
past their `try`/`except` blocks (which catch only `json.JSONDecodeError` and
`OSError`). -/
inductive PyError : Type where
  | keyError : PyError
  | typeError : PyError
  | valueError : PyError
  | attributeError : PyError
deriving DecidableEq, Repr

/-- First value bound to `key` in an association list (Python `dict` lookup;
the dicts in play never hold duplicate keys). -/
def jsonLookup (fields : List (String × Json)) (key : String) : Option Json :=
  match fields with
  | [] => none
  | (k, v) :: rest => if k = key then some v else jsonLookup rest key

/-- Python `raw[key]`: `KeyError` when the key is absent from a dict,
`TypeError` when `raw` is not a dict (list/str/int/… are not subscriptable by
string). -/
def pySubscript (j : Json) (key : String) : Except PyError Json :=
  match j with
  | Json.obj fields =>
    match jsonLookup fields key with
    | some v => Except.ok v
    | none => Except.error PyError.keyError
  | _ => Except.error PyError.typeError

/-- `datetime.fromisoformat`: succeeds on an ISO timestamp string, raises
`ValueError` on any other string, `TypeError` on a non-string argument. -/
def fromisoformat (j : Json) : Except PyError ℤ :=
  match j with
  | Json.time t => Except.ok t
  | Json.str _ => Except.error PyError.valueError
  | _ => Except.error PyError.typeError

/-! ## `app/cache/manager.py` — `CacheEntry`

The content a cache file can be in when a reader opens it. -/
inductive FileContent : Type where
  | missing : FileContent
  | unreadable : FileContent
  | malformed : FileContent
  | valid (j : Json) : FileContent

/-- `CacheEntry.read(self)`: `None` when the file is missing; `OSError` and
`json.JSONDecodeError` are caught and give `None`; everything after
`json.loads` (`raw["expires_at"]`, `fromisoformat`, `raw["data"]`) sits
outside the `try` and propagates exceptions to the caller. -/
def CacheEntry.read (fc : FileContent) (now : ℤ) : Except PyError (Option Json) :=
  match fc with
  | FileContent.missing => Except.ok none
  | FileContent.unreadable => Except.ok none
  | FileContent.malformed => Except.ok none
  | FileContent.valid raw =>
    match pySubscript raw "expires_at" with
    | Except.error e => Except.error e
    | Except.ok ea =>
      match fromisoformat ea with
      | Except.error e => Except.error e
      | Except.ok expiresAt =>
        if now > expiresAt then
          Except.ok none
        else
          match pySubscript raw "data" with
          | Except.error e => Except.error e
          | Except.ok d => Except.ok (some d)

/-- `CacheEntry.read_stale(self)`: the `try` covers `json.loads` and
`raw.get("data")` but the `except` clause only catches `json.JSONDecodeError`
and `OSError`, so `.get` on a non-dict value raises `AttributeError` to the
caller.  A dict without a `"data"` key yields Python `None` (a miss). -/
def CacheEntry.readStale (fc : FileContent) : Except PyError (Option Json) :=
  match fc with
  | FileContent.missing => Except.ok none
  | FileContent.unreadable => Except.ok none
  | FileContent.malformed => Except.ok none
  | FileContent.valid raw =>
    match raw with
    | Json.obj fields => Except.ok (jsonLookup fields "data")
    | _ => Except.error PyError.attributeError

/-- `CacheEntry.write(self, data, ttl_seconds, source_url)`: the payload
written to disk (`expires_at = now + ttl_seconds`, timestamps in seconds). -/
def CacheEntry.write (data : Json) (ttlSeconds : ℤ) (now : ℤ) (sourceUrl : String) : Json :=
  Json.obj [
    ("cached_at", Json.time now),
    ("ttl_seconds", Json.num ttlSeconds),
    ("expires_at", Json.time (now + ttlSeconds)),
    ("source_url", Json.str sourceUrl),
    ("data", data)
  ]

/-- `CacheEntry.is_expired(self)`: `True` for a missing file; the `try` here
catches every `Exception`, so any malformed record also gives `True`. -/
def CacheEntry.isExpired (fc : FileContent) (now : ℤ) : Bool :=
  match fc with
  | FileContent.missing => true
  | FileContent.unreadable => true
  | FileContent.malformed => true
  | FileContent.valid raw =>
    match pySubscript raw "expires_at" with
    | Except.error _ => true
    | Except.ok e =>
      match fromisoformat e with
      | Except.error _ => true
      | Except.ok expiresAt => decide (now > expiresAt)

/-! ## `app/metrics/percentiles.py` — percentile engine

Numeric values are embedded as `ℚ`.  CPython `round` rounds half to even. -/

/-- `math.floor` on a rational (`⌊q⌋`), kept executable. -/
def ratFloor (q : ℚ) : ℤ := q.num.fdiv (q.den : ℤ)

/-- CPython `round(x)`: nearest integer, ties to even. -/
def pyRound (q : ℚ) : ℤ :=
  let f := ratFloor q
  let r := q - (f : ℚ)
  if r < 1 / 2 then f
  else if 1 / 2 < r then f + 1
  else if f % 2 = 0 then f else f + 1

/-- Python `max(list)` (only ever applied to non-empty lists here). -/
def listMax : List ℚ → ℚ
  | [] => 0
  | x :: xs => xs.foldl max x

/-- Python `min(list)` (only ever applied to non-empty lists here). -/
def listMin : List ℚ → ℚ
  | [] => 0
  | x :: xs => xs.foldl min x

/-- `get_percentile(value, all_values)` from `app/metrics/percentiles.py`. -/
def get_percentile (value : ℚ) (all_values : List ℚ) : ℤ :=
  if all_values = [] then 50
  else
    let count_below := all_values.countP (fun v => decide (v < value))
    let count_above := all_values.countP (fun v => decide (value < v))
    if count_above = 0 then 100
    else if count_below = 0 then 0
    else
      let non_top :=
        all_values.length - all_values.countP (fun v => decide (v = listMax all_values))
      pyRound ((count_below : ℚ) / (non_top : ℚ) * 99)

/-- One element of the rankings table's `metrics` list, as produced by
`compute_single_mp_metrics` plus the `party` key added in
`build_rankings_table`.  `attendance` and `party_loyalty` may be `None`
(the code filters them with `is not None`); `bills_sponsored` and
`debate_speeches` are always integers, embedded in `ℚ`. -/
structure MetricRow where
  slug : String
  party : String
  attendance : Option ℚ
  party_loyalty : Option ℚ
  bills_sponsored : ℚ
  debate_speeches : ℚ
deriving DecidableEq, Repr

/-- The rankings table (`table["metrics"]`; the other keys are never read by
the functions verified here and are preserved by `{**table, ...}` updates). -/
structure RankingsTable where
  metrics : List MetricRow
deriving DecidableEq, Repr

/-- The four metric names. -/
inductive Metric : Type where
  | attendance : Metric
  | party_loyalty : Metric
  | bills_sponsored : Metric
  | debate_speeches : Metric
deriving DecidableEq, Repr

/-- Python `m.get(metric)` on a metrics-row dict. -/
def MetricRow.get (m : MetricRow) : Metric → Option ℚ
  | Metric.attendance => m.attendance
  | Metric.party_loyalty => m.party_loyalty
  | Metric.bills_sponsored => some m.bills_sponsored
  | Metric.debate_speeches => some m.debate_speeches

/-- `_INTEGER_METRICS = {"bills_sponsored", "debate_speeches"}`. -/
def isIntegerMetric : Metric → Bool
  | Metric.bills_sponsored => true
  | Metric.debate_speeches => true
  | _ => false

/-- Result dict of `compute_percentiles_for_mp`: one percentile per metric;
`party_loyalty` is `None` for an independent MP. -/
structure PercentileMap where
  attendance : ℤ
  party_loyalty : Option ℤ
  bills_sponsored : ℤ
  debate_speeches : ℤ
deriving DecidableEq, Repr

/-- `compute_percentiles_for_mp(slug, table)`.  Python `x or 0` on the MP's
attendance evaluates to `0` for both `None` and `0.0`, hence `Option.getD 0`
is value-equal. -/
def compute_percentiles_for_mp (slug : String) (table : RankingsTable) : PercentileMap :=
  let metrics_list := table.metrics
  let attendance_vals := metrics_list.filterMap (fun m => m.attendance)
  let loyalty_vals := metrics_list.filterMap (fun m => m.party_loyalty)
  let bills_vals := metrics_list.map (fun m => m.bills_sponsored)
  let speeches_vals := metrics_list.map (fun m => m.debate_speeches)
  match metrics_list.find? (fun m => m.slug == slug) with
  | none =>
    { attendance := 50, party_loyalty := some 50,
      bills_sponsored := 50, debate_speeches := 50 }
  | some mp =>
    { attendance := get_percentile (mp.attendance.getD 0) attendance_vals,
      party_loyalty :=
        match mp.party_loyalty with
        | some l => some (get_percentile l loyalty_vals)
        | none => none,
      bills_sponsored := get_percentile mp.bills_sponsored bills_vals,
      debate_speeches := get_percentile mp.debate_speeches speeches_vals }

/-- Step 1 of `filter_table_by_group`: restrict the metrics list to the
requested comparison group. -/
def groupFiltered (metrics_list : List MetricRow) (group : String)
    (mp_party : String) (government_party : String) : List MetricRow :=
  if group = "party" then metrics_list.filter (fun m => m.party == mp_party)
  else if group = "government" then
    metrics_list.filter (fun m => m.party == government_party)
  else if group = "opposition" then
    metrics_list.filter (fun m => m.party != government_party)
  else metrics_list

/-- Step 2 of `filter_table_by_group`: re-add the subject's own record when the
group filter excluded it (and the subject exists in the table at all). -/
def withSelf (slug : String) (metrics_list filtered : List MetricRow) : List MetricRow :=
  match metrics_list.find? (fun m => m.slug == slug) with
  | some mp_own =>
    if filtered.any (fun m => m.slug == slug) then filtered else filtered ++ [mp_own]
  | none => filtered

/-- `filter_table_by_group(slug, table, group, mp_party, government_party)`. -/
def filter_table_by_group (slug : String) (table : RankingsTable) (group : String)
    (mp_party : String) (government_party : String) : RankingsTable :=
  let metrics_list := table.metrics
  let filtered := groupFiltered metrics_list group mp_party government_party
  let filtered2 := withSelf slug metrics_list filtered
  if filtered2.length < 5 then { table with metrics := metrics_list }
  else { table with metrics := filtered2 }

/-- Python `int(x)` on a float/rational: truncation toward zero. -/
def pyTrunc (q : ℚ) : ℤ :=
  if 0 ≤ q then ratFloor q else -(ratFloor (-q))

/-- Python `buckets[i] += 1` on a list of counters: negative indices within
range address from the end; an index out of range raises `IndexError` in
Python and is unreachable for the indices this module produces (every bucket
index is computed from a value bounded by the observed maximum), so the model
leaves the list unchanged there. -/
def pyNormIdx (len : ℕ) (i : ℤ) : ℤ :=
  if i < 0 then (len : ℤ) + i else i

def pyListIncr (l : List ℕ) (i : ℤ) : List ℕ :=
  if 0 ≤ pyNormIdx l.length i ∧ pyNormIdx l.length i < (l.length : ℤ) then
    l.set (pyNormIdx l.length i).toNat (l.getD (pyNormIdx l.length i).toNat 0 + 1)
  else l

/-- One metric's entry in the result of `compute_distributions_for_mp`. -/
structure Distribution where
  buckets : List ℕ
  mp_bucket : ℤ
  lo : ℚ
  hi : ℚ
deriving DecidableEq, Repr

/-- `compute_distributions_for_mp(slug, table, num_buckets=20)`, one metric at
a time (the Python function builds the dict over all four metrics with this
per-metric body).  `[0] * n` for `n ≤ 0` is the empty list, matching
`List.replicate` after `Int.toNat`. -/
def compute_distributions_for_mp (slug : String) (table : RankingsTable)
    (num_buckets : ℕ) (metric : Metric) : Option Distribution :=
  let metrics_list := table.metrics
  let mp_metrics := metrics_list.find? (fun m => m.slug == slug)
  let all_vals := metrics_list.filterMap (fun m => m.get metric)
  if all_vals = [] then none
  else
    match mp_metrics with
    | none => none
    | some mp =>
      match mp.get metric with
      | none => none
      | some mp_val =>
        let lo := listMin all_vals
        let hi := listMax all_vals
        if isIntegerMetric metric ∧ pyTrunc hi < (num_buckets : ℤ) then
          let hi_int := pyTrunc hi
          let buckets := all_vals.foldl (fun bs v => pyListIncr bs (pyTrunc v))
            (List.replicate (hi_int + 1).toNat 0)
          some { buckets := buckets, mp_bucket := pyTrunc mp_val, lo := lo, hi := hi }
        else
          let span := if hi - lo = 0 then 1 else hi - lo
          let buckets := all_vals.foldl
            (fun bs v => pyListIncr bs (min (pyTrunc ((v - lo) / span * (num_buckets : ℚ))) ((num_buckets : ℤ) - 1)))
            (List.replicate num_buckets 0)
          let mp_bucket :=
            min (pyTrunc ((mp_val - lo) / span * (num_buckets : ℚ))) ((num_buckets : ℤ) - 1)
          some { buckets := buckets, mp_bucket := mp_bucket, lo := lo, hi := hi }

/-! ## `app/metrics/attendance.py` — `compute_attendance`

Dates are embedded as integers (`date` objects compare chronologically);
`_parse_date` returns `date.min` for a missing or malformed date string, which
the embedding represents as `⊥` in `WithBot ℤ` (strictly below every real
date a caller can pass for `start_date`). -/

/-- CPython `round(x, 1)`: round to one decimal place, ties to even. -/
def pyRound1 (q : ℚ) : ℚ := ((pyRound (q * 10) : ℚ)) / 10

/-- A ballot dict as consumed by `compute_attendance`: only the `"ballot"`
value is read (`b.get("ballot")`; a missing key behaves like any string other
than `"Yes"`/`"No"`, embedded as `""`). -/
structure AttBallot where
  ballot : String
deriving DecidableEq, Repr

/-- A session-vote dict as consumed by `compute_attendance`: only the date is
read.  `none` stands for a missing or unparseable date string. -/
structure SessionVote where
  date : Option ℤ
deriving DecidableEq, Repr

/-- `_parse_date(v.get("date", ""))`: `date.min` (here `⊥`) on failure. -/
def parsedDate (v : SessionVote) : WithBot ℤ :=
  match v.date with
  | some d => (d : WithBot ℤ)
  | none => ⊥

/-- The `eligible_votes` list of `compute_attendance` (`start_date = none`
models a falsy/absent `start_date`). -/
def eligibleVotes (session_votes : List SessionVote) (start_date : Option ℤ) :
    List SessionVote :=
  match start_date with
  | some sd => session_votes.filter (fun v => decide ((sd : WithBot ℤ) ≤ parsedDate v))
  | none => session_votes

/-- `compute_attendance(ballots, session_votes, start_date)`. -/
def compute_attendance (ballots : List AttBallot) (session_votes : List SessionVote)
    (start_date : Option ℤ) : ℚ :=
  if session_votes = [] then 0
  else
    let eligible := eligibleVotes session_votes start_date
    if eligible.length = 0 then 0
    else
      let votes_cast := ballots.countP (fun b => b.ballot == "Yes" || b.ballot == "No")
      pyRound1 ((votes_cast : ℚ) / (eligible.length : ℚ) * 100)

/-! ## `app/metrics/party_loyalty.py` — `compute_party_loyalty`

The network side (`fetch_vote_details_batch`) is abstracted as a function
`details : String → Option VoteDetail` giving, per vote number, the detail
`fetch_vote_detail` would produce (`none` for a failed fetch, which the batch
drops from its result dict). -/

/-- Python `str.lower()` (per-character lowering). -/
def strLower (s : String) : String := String.mk (s.toList.map Char.toLower)

/-- `xs` is a prefix of `ys` (as character lists). -/
def charsLead : List Char → List Char → Bool
  | [], _ => true
  | _ :: _, [] => false
  | x :: xs, y :: ys => x == y && charsLead xs ys

/-- Occurs-inside on character lists (helper for Python's `in` on strings). -/
def charsInside (sub : List Char) : List Char → Bool
  | [] => decide (sub = [])
  | c :: rest => charsLead sub (c :: rest) || charsInside sub rest

/-- Python `sub in hay` for strings: substring containment. -/
def pyIn (sub hay : String) : Bool := charsInside sub.toList hay.toList

/-- `str.strip("/")`: drop leading and trailing slashes. -/
def stripSlashes (s : String) : String :=
  String.mk (((s.toList.dropWhile (fun c => c == '/')).reverse.dropWhile
    (fun c => c == '/')).reverse)

/-- `str.split("/")` on a character list (Python split with an explicit
separator: `"" → [""]`, adjacent separators produce empty segments). -/
def splitSlash : List Char → List (List Char)
  | [] => [[]]
  | c :: rest =>
    match splitSlash rest with
    | [] => [[c]]
    | h :: t => if c == '/' then [] :: h :: t else (c :: h) :: t

/-- `_extract_vote_number(vote_url)`: `parts = url.strip("/").split("/")`;
the last part when there are at least 3 parts, else `None`. -/
def extractVoteNumber (vote_url : String) : Option String :=
  let parts := splitSlash (stripSlashes vote_url).toList
  if parts.length ≥ 3 then parts.getLast?.map String.mk else none

/-- One element of a vote detail's `party_votes` list.  `name_en` is the
resolved English short name (`(pv.get("party") or {}).get("short_name", {})`,
`.get("en", "")` when that is a dict, else its `str(...)`); `vote` is
`pv.get("vote")`; `disagreement` is `pv.get("disagreement")`. -/
structure PartyVote where
  name_en : String
  vote : Option String
  disagreement : Option ℚ
deriving DecidableEq, Repr

/-- A vote detail as consumed by the loyalty computation: its `party_votes`. -/
structure VoteDetail where
  party_votes : List PartyVote
deriving DecidableEq, Repr

/-- The name-match test shared by `_find_party_position` and
`_get_party_disagreement`: `name_en.lower() in party_lower or party_lower in
name_en.lower()`. -/
def partyNameMatches (pv : PartyVote) (party_lower : String) : Bool :=
  pyIn (strLower pv.name_en) party_lower || pyIn party_lower (strLower pv.name_en)

/-- `_find_party_position(party_votes, politician_party)`: the first matching
party's `vote` (which may itself be `None`, treated by the caller like "no
position"). -/
def findPartyPosition (party_votes : List PartyVote) (politician_party : String) :
    Option String :=
  match party_votes with
  | [] => none
  | pv :: rest =>
    if partyNameMatches pv (strLower politician_party) then pv.vote
    else findPartyPosition rest politician_party

/-- `_get_party_disagreement(party_votes, politician_party)`. -/
def getPartyDisagreement (party_votes : List PartyVote) (politician_party : String) :
    Option ℚ :=
  match party_votes with
  | [] => none
  | pv :: rest =>
    if partyNameMatches pv (strLower politician_party) then pv.disagreement
    else getPartyDisagreement rest politician_party

/-- `settings.free_vote_threshold = 0.3`. -/
def free_vote_threshold : ℚ := 3 / 10

/-- A ballot dict as consumed by `compute_party_loyalty`.  `vote_url` holds
the resolved `ballot.get("vote_url") or (ballot.get("vote") or {}).get("url",
"")` (a string; `""` for the all-falsy outcome); `ballot` is
`ballot.get("ballot", "")`. -/
structure LoyaltyBallot where
  vote_url : String
  ballot : String
deriving DecidableEq, Repr

/-- Python `dict.__setitem__` on an association list: overwrite in place or
append. -/
def assocSet : List (String × String) → String → String → List (String × String)
  | [], k, v => [(k, v)]
  | (k0, v0) :: rest, k, v =>
    if k0 = k then (k0, v) :: rest else (k0, v0) :: assocSet rest k v

/-- Python `dict.get` on an association list. -/
def assocGet : List (String × String) → String → Option String
  | [], _ => none
  | (k0, v0) :: rest, k => if k0 = k then some v0 else assocGet rest k

/-- The collection loop of `compute_party_loyalty`: builds `vote_numbers`
(appended in ballot order, duplicates kept) and `ballot_map` (vote number →
ballot value, last write wins). -/
def collectVoteNumbers (ballots : List LoyaltyBallot) :
    List String × List (String × String) :=
  ballots.foldl
    (fun acc b =>
      if b.vote_url = "" then acc
      else if b.ballot = "Paired" then acc
      else
        match extractVoteNumber b.vote_url with
        | some n => if n = "" then acc else (acc.1 ++ [n], assocSet acc.2 n b.ballot)
        | none => acc)
    ([], [])

/-- Keep the first occurrence of each element (Python dict-key order for the
comprehension `{k: v for k, v in results}`). -/
def dedupFirst (l : List String) : List String := (l.reverse.dedup).reverse

/-- `fetch_vote_details_batch(client, session, vote_numbers)`: one detail per
distinct vote number, dropping numbers whose fetch failed. -/
def batchDetails (details : String → Option VoteDetail) (nums : List String) :
    List (String × VoteDetail) :=
  (dedupFirst nums).filterMap (fun n => (details n).map (fun d => (n, d)))

/-- The tally loop of `compute_party_loyalty`: returns `(loyal, total)`. -/
def loyaltyCounts (ballot_map : List (String × String))
    (vote_details : List (String × VoteDetail)) (politician_party : String) : ℕ × ℕ :=
  vote_details.foldl
    (fun acc it =>
      let politician_ballot := (assocGet ballot_map it.1).getD ""
      if politician_ballot = "" then acc
      else
        match findPartyPosition it.2.party_votes politician_party with
        | none => acc
        | some party_position =>
          match getPartyDisagreement it.2.party_votes politician_party with
          | some d =>
            if d > free_vote_threshold then acc
            else (acc.1 + (if politician_ballot = party_position then 1 else 0), acc.2 + 1)
          | none =>
            (acc.1 + (if politician_ballot = party_position then 1 else 0), acc.2 + 1))
    (0, 0)

/-- `compute_party_loyalty(client, ballots, politician_party, session)`. -/
def compute_party_loyalty (details : String → Option VoteDetail)
    (ballots : List LoyaltyBallot) (politician_party : String) : Option ℚ :=
  if politician_party = "" ∨ strLower politician_party = "independent" ∨
      strLower politician_party = "ind." then none
  else if ballots = [] then some 0
  else
    let vn := collectVoteNumbers ballots
    if vn.1 = [] then some 0
    else
      let lc := loyaltyCounts vn.2 (batchDetails details vn.1) politician_party
      if lc.2 = 0 then none
      else some (pyRound1 ((lc.1 : ℚ) / (lc.2 : ℚ) * 100))

/-! ## `app/api/speeches.py` and `app/cache/warmup.py` — fetch traces

A cache entry holding a record written by this application, abstracted to its
freshness and payload: `missing` covers a missing or corrupt file, `stale` an
expired record, `fresh` an unexpired one.  `Slot.read` / `Slot.readStale` /
`Slot.isExpired` agree with the `CacheEntry` operations on such records (see
the `slotFileContent` agreement lemmas below). -/
inductive Slot (α : Type) : Type where
  | missing : Slot α
  | stale (d : α) : Slot α
  | fresh (d : α) : Slot α

/-- `CacheEntry.read` on an app-written record: data only while unexpired. -/
def Slot.read {α : Type} : Slot α → Option α
  | Slot.fresh d => some d
  | _ => none

/-- `CacheEntry.read_stale` on an app-written record: data whenever the file
exists. -/
def Slot.readStale {α : Type} : Slot α → Option α
  | Slot.missing => none
  | Slot.stale d => some d
  | Slot.fresh d => some d

/-- `CacheEntry.is_expired` on an app-written record. -/
def Slot.isExpired {α : Type} : Slot α → Bool
  | Slot.fresh _ => false
  | _ => true

/-- A `FileContent` realizing a `Slot Json` at instant `now` (an expired
record was written with `expires_at = now - 1`, a fresh one with
`expires_at = now + 1`). -/
def slotFileContent (s : Slot Json) (now : ℤ) : FileContent :=
  match s with
  | Slot.missing => FileContent.missing
  | Slot.stale d => FileContent.valid (CacheEntry.write d 0 (now - 1) "")
  | Slot.fresh d => FileContent.valid (CacheEntry.write d 1 now "")

/-- The network-visible per-entity resource types of the warmup pipeline. -/
inductive Resource : Type where
  | ballots : Resource
  | speeches : Resource
  | bills : Resource
deriving DecidableEq, Repr

/-- The cache entries touched for one entity/session pair, plus what the
remote API would return for it.  `summary` is the speech-count summary record
(payload `{"speech_count": n}` abstracted to `n`), `full` the full speech
list (legacy entries only — the current code never writes it). -/
structure WarmupWorld : Type where
  summary : Slot ℕ
  full : Slot (List Json)
  ballots : Slot (List Json)
  bills : Slot (List Json)
  apiSpeechCount : ℕ
  apiBallots : List Json
  apiBills : List Json

/-- `_ensure_summary(slug, session, count, in_session)`: write the summary
record only if it is missing or expired. -/
def ensureSummary (w : WarmupWorld) (count : ℕ) : WarmupWorld :=
  if (Slot.isExpired w.summary) then { w with summary := Slot.fresh count } else w

/-- `fetch_politician_speeches(client, slug, session)`: summary hit → no
network; otherwise one paginated speech fetch whose length is persisted via
`_ensure_summary` — the full list itself is never written.  Returns the
function result, the new cache state, and the network fetches issued. -/
def fetch_politician_speeches (w : WarmupWorld) :
    List Json × WarmupWorld × List Resource :=
  match Slot.read w.summary with
  | some _ => ([], w, [])
  | none => ([], ensureSummary w w.apiSpeechCount, [Resource.speeches])

/-- `fetch_speech_count(client, slug, session)`. -/
def fetch_speech_count (w : WarmupWorld) : ℕ × WarmupWorld × List Resource :=
  match Slot.read w.summary with
  | some c => (c, w, [])
  | none =>
    match Slot.readStale w.full with
    | some lst => (lst.length, ensureSummary w lst.length, [])
    | none =>
      let r := fetch_politician_speeches w
      match Slot.read r.2.1.summary with
      | some c => (c, r.2.1, r.2.2)
      | none => (0, r.2.1, r.2.2)

/-- `fetch_politician_ballots(client, slug, session, stale_ok)`: fresh hit,
then (with `stale_ok`) stale hit, then a network fetch that writes the entry.
The session-filtering of the paginated result is abstracted into
`apiBallots`. -/
def fetch_politician_ballots (stale_ok : Bool) (w : WarmupWorld) :
    List Json × WarmupWorld × List Resource :=
  match Slot.read w.ballots with
  | some bs => (bs, w, [])
  | none =>
    if stale_ok then
      match Slot.readStale w.ballots with
      | some bs => (bs, w, [])
      | none =>
        (w.apiBallots, { w with ballots := Slot.fresh w.apiBallots }, [Resource.ballots])
    else
      (w.apiBallots, { w with ballots := Slot.fresh w.apiBallots }, [Resource.ballots])

/-- `fetch_sponsored_bills(client, slug, session)`: fresh hit or a network
fetch that writes the entry. -/
def fetch_sponsored_bills (w : WarmupWorld) :
    List Json × WarmupWorld × List Resource :=
  match Slot.read w.bills with
  | some bs => (bs, w, [])
  | none => (w.apiBills, { w with bills := Slot.fresh w.apiBills }, [Resource.bills])

/-- The per-entity cache effects and fetch trace of
`compute_single_mp_metrics`: ballots with `stale_ok=True`, the speech count,
and the sponsored bills (the `asyncio.gather` touches disjoint entries, so
sequential composition yields the same effects and trace; the party-loyalty
vote-detail fetches are not per-entity resources and are out of scope). -/
def compute_single_mp_metrics_trace (w : WarmupWorld) : WarmupWorld × List Resource :=
  let rb := fetch_politician_ballots true w
  let rs := fetch_speech_count rb.2.1
  let rbl := fetch_sponsored_bills rs.2.1
  (rbl.2.1, rb.2.2 ++ rs.2.2 ++ rbl.2.2)

/-- The per-entity cache effects and fetch trace of
`compute_card_metrics_for_mp`: `compute_single_mp_metrics`, then bills again,
then ballots again (`stale_ok=True`). -/
def compute_card_metrics_trace (w : WarmupWorld) : WarmupWorld × List Resource :=
  let r1 := compute_single_mp_metrics_trace w
  let r2 := fetch_sponsored_bills r1.1
  let r3 := fetch_politician_ballots true r2.2.1
  (r3.2.1, r1.2 ++ r2.2.2 ++ r3.2.2)

/-- The fetches `background_warmup` issues for one entity `X` across its
three stages, given whether `X` is in the persisted `completed` set: the
per-entity fetch loop (skipped entirely for a completed entity), the
rankings-table build (`compute_single_mp_metrics`), and the card build
(`compute_card_metrics_for_mp`). -/
def warmupEntityTrace (completedInFile : Bool) (w : WarmupWorld) :
    WarmupWorld × List Resource :=
  let s1 :=
    if completedInFile then (w, ([] : List Resource))
    else
      let rb := fetch_politician_ballots false w
      let rs := fetch_politician_speeches rb.2.1
      let rbl := fetch_sponsored_bills rs.2.1
      (rbl.2.1, rb.2.2 ++ rs.2.2 ++ rbl.2.2)
  let s2 := compute_single_mp_metrics_trace s1.1
  let s3 := compute_card_metrics_trace s2.1
  (s3.1, s1.2 ++ s2.2 ++ s3.2)

/-! ## Helper lemmas -/

/-- `Slot.read` agrees with `CacheEntry.read` on app-written records. -/
theorem slot_read_agrees (s : Slot Json) (now : ℤ) :
    CacheEntry.read (slotFileContent s now) now = Except.ok (Slot.read s) := by
  cases s with
  | missing => rfl
  | stale d =>
    simp [slotFileContent, CacheEntry.read, CacheEntry.write, pySubscript,
      jsonLookup, fromisoformat, Slot.read]
  | fresh d =>
    simp [slotFileContent, CacheEntry.read, CacheEntry.write, pySubscript,
      jsonLookup, fromisoformat, Slot.read]

/-- `Slot.readStale` agrees with `CacheEntry.read_stale` on app-written
records. -/
theorem slot_readStale_agrees (s : Slot Json) (now : ℤ) :
    CacheEntry.readStale (slotFileContent s now) = Except.ok (Slot.readStale s) := by
  cases s <;> rfl

/-- `Slot.isExpired` agrees with `CacheEntry.is_expired` on app-written
records. -/
theorem slot_isExpired_agrees (s : Slot Json) (now : ℤ) :
    CacheEntry.isExpired (slotFileContent s now) now = Slot.isExpired s := by
  cases s with
  | missing => rfl
  | stale d =>
    simp [slotFileContent, CacheEntry.isExpired, CacheEntry.write, pySubscript,
      jsonLookup, fromisoformat, Slot.isExpired]
  | fresh d =>
    simp [slotFileContent, CacheEntry.isExpired, CacheEntry.write, pySubscript,
      jsonLookup, fromisoformat, Slot.isExpired]

theorem pyListIncr_length (l : List ℕ) (i : ℤ) : (pyListIncr l i).length = l.length := by
  unfold pyListIncr
  split
  · exact List.length_set l _ _
  · rfl

theorem get_percentile_five_example :
    get_percentile 5 [10, 10, 10, 5, 5, 0] = 33 := by
  have h1 : ([10, 10, 10, 5, 5, 0] : List ℚ).countP (fun v => decide (v < 5)) = 1 := by
    decide
  have h2 : ([10, 10, 10, 5, 5, 0] : List ℚ).countP (fun v => decide ((5 : ℚ) < v)) = 3 := by
    decide
  have h3 : ([10, 10, 10, 5, 5, 0] : List ℚ).countP
      (fun v => decide (v = listMax [10, 10, 10, 5, 5, 0])) = 3 := by decide
  simp only [get_percentile, h1, h2, h3]
  norm_num [pyRound, ratFloor]
  simp

theorem foldl_pyListIncr_length (vals : List ℚ) (g : ℚ → ℤ) (init : List ℕ) :
    (vals.foldl (fun bs v => pyListIncr bs (g v)) init).length = init.length := by
  induction vals generalizing init with
  | nil => rfl
  | cons v vs ih => rw [List.foldl_cons, ih, pyListIncr_length]

theorem read_none_isExpired {α : Type} (s : Slot α) (h : Slot.read s = none) :
    Slot.isExpired s = true := by
  cases s <;> simp_all [Slot.read, Slot.isExpired]

/-! ## Theorems -/

/-- **C4 counterexample** — the claim that the last-resort network fetch
"writes both the full speech cache entry and the summary cache entry" is
false: starting from empty caches, `fetch_speech_count` does one network
fetch, writes only the summary entry, and leaves the full speech entry
unwritten (the code comments call this out: the full entry is never
written). -/
theorem fetch_speech_count_full_entry_never_written :
    fetch_speech_count
        { summary := Slot.missing, full := Slot.missing, ballots := Slot.missing,
          bills := Slot.missing, apiSpeechCount := 2, apiBallots := [],
          apiBills := [] } =
      (2,
       { summary := Slot.fresh 2, full := Slot.missing, ballots := Slot.missing,
         bills := Slot.missing, apiSpeechCount := 2, apiBallots := [],
         apiBills := [] },
       [Resource.speeches]) := rfl

/-- **C4 (amended)** — `fetch_speech_count` checks sources in this exact
order: (1) the summary cache — on hit it returns the stored count with no
network traffic and no writes; (2) the stale full speech cache — on hit it
returns the length of the stored list and backfills the summary cache, again
with no network traffic; (3) a full network fetch as last resort, which
writes only the summary cache entry (the full speech entry is never written)
before the count is returned. -/
theorem fetch_speech_count_order (w : WarmupWorld) :
    (∀ c, Slot.read w.summary = some c → fetch_speech_count w = (c, w, [])) ∧
    (Slot.read w.summary = none → ∀ lst, Slot.readStale w.full = some lst →
      fetch_speech_count w =
        (lst.length, { w with summary := Slot.fresh lst.length }, [])) ∧
    (Slot.read w.summary = none → Slot.readStale w.full = none →
      fetch_speech_count w =
        (w.apiSpeechCount, { w with summary := Slot.fresh w.apiSpeechCount },
         [Resource.speeches])) := by
  refine ⟨?_, ?_, ?_⟩
  · intro c hc
    simp only [fetch_speech_count, hc]
  · intro h lst hl
    have he : ensureSummary w lst.length = { w with summary := Slot.fresh lst.length } := by
      unfold ensureSummary
      rw [read_none_isExpired _ h]
      simp
    simp only [fetch_speech_count, h, hl, he]
  · intro h hl
    have he : ensureSummary w w.apiSpeechCount =
        { w with summary := Slot.fresh w.apiSpeechCount } := by
      unfold ensureSummary
      rw [read_none_isExpired _ h]
      simp
    simp only [fetch_speech_count, h, hl, fetch_politician_speeches, he]
    simp [Slot.read]

/-- Witness for C4 (amended): all three branches on concrete worlds. -/
theorem fetch_speech_count_order_witness :
    fetch_speech_count
        { summary := Slot.fresh 7, full := Slot.missing, ballots := Slot.missing,
          bills := Slot.missing, apiSpeechCount := 5, apiBallots := [], apiBills := [] } =
      (7,
       { summary := Slot.fresh 7, full := Slot.missing, ballots := Slot.missing,
         bills := Slot.missing, apiSpeechCount := 5, apiBallots := [], apiBills := [] },
       []) ∧
    fetch_speech_count
        { summary := Slot.stale 7, full := Slot.stale [Json.null, Json.null, Json.null],
          ballots := Slot.missing, bills := Slot.missing, apiSpeechCount := 5,
          apiBallots := [], apiBills := [] } =
      (3,
       { summary := Slot.fresh 3, full := Slot.stale [Json.null, Json.null, Json.null],
         ballots := Slot.missing, bills := Slot.missing, apiSpeechCount := 5,
         apiBallots := [], apiBills := [] },
       []) ∧
    fetch_speech_count
        { summary := Slot.stale 7, full := Slot.missing, ballots := Slot.missing,
          bills := Slot.missing, apiSpeechCount := 5, apiBallots := [], apiBills := [] } =
      (5,
       { summary := Slot.fresh 5, full := Slot.missing, ballots := Slot.missing,
         bills := Slot.missing, apiSpeechCount := 5, apiBallots := [], apiBills := [] },
       [Resource.speeches]) :=
  ⟨(fetch_speech_count_order
      { summary := Slot.fresh 7, full := Slot.missing, ballots := Slot.missing,
        bills := Slot.missing, apiSpeechCount := 5, apiBallots := [],
        apiBills := [] }).1 7 rfl,
   (fetch_speech_count_order
      { summary := Slot.stale 7, full := Slot.stale [Json.null, Json.null, Json.null],
        ballots := Slot.missing, bills := Slot.missing, apiSpeechCount := 5,
        apiBallots := [], apiBills := [] }).2.1 rfl
     [Json.null, Json.null, Json.null] rfl,
   (fetch_speech_count_order
      { summary := Slot.stale 7, full := Slot.missing, ballots := Slot.missing,
        bills := Slot.missing, apiSpeechCount := 5, apiBallots := [],
        apiBills := [] }).2.2 rfl rfl⟩

/-- **C5 counterexample** — the claim "a fresh orchestrator run never issues
a network fetch for a completed entity's three per-entity resource types" is
false: with the entity in `completed`, its ballots and bills caches fresh,
but its speech summary expired (the summary TTL is 4h) and no full speech
file on disk (the current fetcher never writes one), the rankings stage's
`fetch_speech_count` issues a network speech fetch. -/
theorem warmup_completed_refetches_expired_speeches :
    (warmupEntityTrace true
      { summary := Slot.stale 3, full := Slot.missing, ballots := Slot.fresh [],
        bills := Slot.fresh [], apiSpeechCount := 3, apiBallots := [],
        apiBills := [] }).2 = [Resource.speeches] := rfl

/-- **C5 (amended)** — for an entity in the persisted `completed` set, the
per-entity fetch loop is skipped, and the whole run (including the
rankings-table and card stages) issues no network fetch for the entity's
three resource types provided its cached data is still available: a ballots
file on disk (fresh or stale — ballots are read with `stale_ok`), an
unexpired speech summary, and an unexpired bills entry. -/
theorem warmup_completed_no_refetch (w : WarmupWorld) (c : ℕ) (b : List Json) :
    w.ballots ≠ Slot.missing → w.summary = Slot.fresh c → w.bills = Slot.fresh b →
    (warmupEntityTrace true w).2 = [] := by
  intro hb hs hbl
  cases hball : w.ballots with
  | missing => exact absurd hball hb
  | stale d =>
    simp [warmupEntityTrace, compute_single_mp_metrics_trace,
      compute_card_metrics_trace, fetch_politician_ballots, fetch_speech_count,
      fetch_sponsored_bills, hball, hs, hbl, Slot.read, Slot.readStale]
  | fresh d =>
    simp [warmupEntityTrace, compute_single_mp_metrics_trace,
      compute_card_metrics_trace, fetch_politician_ballots, fetch_speech_count,
      fetch_sponsored_bills, hball, hs, hbl, Slot.read, Slot.readStale]

/-- Witness for C5 (amended): completed entity with stale ballots, fresh
summary and fresh bills — no fetches across all three stages. -/
theorem warmup_completed_no_refetch_witness :
    (warmupEntityTrace true
      { summary := Slot.fresh 3, full := Slot.missing, ballots := Slot.stale [Json.null],
        bills := Slot.fresh [], apiSpeechCount := 3, apiBallots := [],
        apiBills := [] }).2 = [] :=
  warmup_completed_no_refetch
    { summary := Slot.fresh 3, full := Slot.missing, ballots := Slot.stale [Json.null],
      bills := Slot.fresh [], apiSpeechCount := 3, apiBallots := [], apiBills := [] }
    3 [] (by intro h; cases h) rfl rfl

/-- **C1** — `get_percentile` on a non-empty population: if no population value
is strictly greater than `v` it returns 100; otherwise if no population value
is strictly less than `v` it returns 0; otherwise it returns
`round(count_below / non_top * 99)` with `non_top` the population size minus
the number of values tied at the maximum.  For `[10,10,10,5,5,0]`: value 10
gives 100, value 0 gives 0, value 5 gives an integer in 1–99. -/
theorem get_percentile_anchored (v : ℚ) (vals : List ℚ) (hne : vals ≠ []) :
    (vals.countP (fun x => decide (v < x)) = 0 → get_percentile v vals = 100) ∧
    (vals.countP (fun x => decide (v < x)) ≠ 0 →
      vals.countP (fun x => decide (x < v)) = 0 → get_percentile v vals = 0) ∧
    (vals.countP (fun x => decide (v < x)) ≠ 0 →
      vals.countP (fun x => decide (x < v)) ≠ 0 →
      get_percentile v vals =
        pyRound ((vals.countP (fun x => decide (x < v)) : ℚ) /
          ((vals.length - vals.countP (fun x => decide (x = listMax vals)) : ℕ) : ℚ) * 99)) ∧
    get_percentile 10 [10, 10, 10, 5, 5, 0] = 100 ∧
    get_percentile 0 [10, 10, 10, 5, 5, 0] = 0 ∧
    1 ≤ get_percentile 5 [10, 10, 10, 5, 5, 0] ∧
    get_percentile 5 [10, 10, 10, 5, 5, 0] ≤ 99 := by
  refine ⟨?_, ?_, ?_, by decide, by decide,
    get_percentile_five_example ▸ (by decide),
    get_percentile_five_example ▸ (by decide)⟩
  · intro h
    simp [get_percentile, hne, h]
  · intro ha hb
    simp [get_percentile, hne, ha, hb]
  · intro ha hb
    simp [get_percentile, hne, ha, hb]

/-- Witness for C1 at `v = 5`, population `[10,10,10,5,5,0]`. -/
theorem get_percentile_anchored_witness :
    get_percentile 10 [10, 10, 10, 5, 5, 0] = 100 ∧
    get_percentile 0 [10, 10, 10, 5, 5, 0] = 0 ∧
    1 ≤ get_percentile 5 [10, 10, 10, 5, 5, 0] ∧
    get_percentile 5 [10, 10, 10, 5, 5, 0] ≤ 99 :=
  ⟨(get_percentile_anchored 5 [10, 10, 10, 5, 5, 0] (by decide)).2.2.2.1,
   (get_percentile_anchored 5 [10, 10, 10, 5, 5, 0] (by decide)).2.2.2.2.1,
   (get_percentile_anchored 5 [10, 10, 10, 5, 5, 0] (by decide)).2.2.2.2.2⟩

/-- **C10** — absent comparison data defaults to the median rank:
`get_percentile(v, [])` is 50 for every `v`, and `compute_percentiles_for_mp`
returns 50 for every metric when the subject's slug is not in the table. -/
theorem absent_comparison_defaults_to_median :
    (∀ v : ℚ, get_percentile v [] = 50) ∧
    (∀ (slug : String) (table : RankingsTable),
      (∀ m ∈ table.metrics, m.slug ≠ slug) →
      compute_percentiles_for_mp slug table =
        { attendance := 50, party_loyalty := some 50,
          bills_sponsored := 50, debate_speeches := 50 }) := by
  constructor
  · intro v
    rfl
  · intro slug table h
    have hfind : table.metrics.find? (fun m => m.slug == slug) = none := by
      rw [List.find?_eq_none]
      intro m hm
      simpa using h m hm
    simp only [compute_percentiles_for_mp, hfind]

/-- Witness for C10 on a one-row table whose slug differs from the subject. -/
theorem absent_comparison_defaults_to_median_witness :
    get_percentile 3 [] = 50 ∧
    compute_percentiles_for_mp "a"
        { metrics := [{ slug := "b", party := "P", attendance := some 1,
                        party_loyalty := none, bills_sponsored := 2,
                        debate_speeches := 3 }] } =
      { attendance := 50, party_loyalty := some 50,
        bills_sponsored := 50, debate_speeches := 50 } :=
  ⟨absent_comparison_defaults_to_median.1 3,
   absent_comparison_defaults_to_median.2 "a" _ (by decide)⟩

/-- **C8** — `filter_table_by_group` first restricts the metrics list to the
group, then re-adds the subject's record if the filter excluded it, and
finally returns the full unfiltered list whenever the filtered result has
fewer than 5 members (even when the requested group is non-empty but small);
`"all"` (or an unknown group) keeps the full list, and a subject present in
the table is always present in the result. -/
theorem filter_table_by_group_staged (slug : String) (table : RankingsTable)
    (group mp_party government_party : String) :
    (filter_table_by_group slug table group mp_party government_party).metrics =
      (if (withSelf slug table.metrics
            (groupFiltered table.metrics group mp_party government_party)).length < 5
       then table.metrics
       else withSelf slug table.metrics
            (groupFiltered table.metrics group mp_party government_party)) ∧
    (group = "all" →
      groupFiltered table.metrics group mp_party government_party = table.metrics) ∧
    ((∃ m ∈ table.metrics, m.slug = slug) →
      ∃ m ∈ (filter_table_by_group slug table group mp_party government_party).metrics,
        m.slug = slug) := by
  refine ⟨?_, ?_, ?_⟩
  · by_cases h : (withSelf slug table.metrics
        (groupFiltered table.metrics group mp_party government_party)).length < 5
    · simp only [filter_table_by_group, if_pos h]
    · simp only [filter_table_by_group, if_neg h]
  · intro h
    subst h
    simp [groupFiltered]
  · rintro ⟨m0, hm0, hs0⟩
    by_cases hlen : (withSelf slug table.metrics
        (groupFiltered table.metrics group mp_party government_party)).length < 5
    · simp only [filter_table_by_group, if_pos hlen]
      exact ⟨m0, hm0, hs0⟩
    · simp only [filter_table_by_group, if_neg hlen]
      unfold withSelf
      cases hfind : table.metrics.find? (fun m => m.slug == slug) with
      | none =>
        rw [List.find?_eq_none] at hfind
        exact absurd (by simp [hs0]) (hfind m0 hm0)
      | some mp_own =>
        dsimp only
        by_cases hany : (groupFiltered table.metrics group mp_party government_party).any
            (fun m => m.slug == slug)
        · rw [if_pos hany]
          obtain ⟨m, hm, hms⟩ := List.any_eq_true.mp hany
          exact ⟨m, hm, by simpa using hms⟩
        · rw [if_neg hany]
          refine ⟨mp_own, List.mem_append_right _ (List.mem_singleton.mpr rfl), ?_⟩
          simpa using List.find?_some hfind

/-- Witness for C8: a two-member party group falls back to the full table, and
the subject stays present. -/
theorem filter_table_by_group_staged_witness :
    (filter_table_by_group "a"
        { metrics := [
            { slug := "a", party := "P", attendance := some 1, party_loyalty := none,
              bills_sponsored := 0, debate_speeches := 0 },
            { slug := "b", party := "P", attendance := some 1, party_loyalty := none,
              bills_sponsored := 0, debate_speeches := 0 },
            { slug := "c", party := "Q", attendance := some 1, party_loyalty := none,
              bills_sponsored := 0, debate_speeches := 0 },
            { slug := "d", party := "Q", attendance := some 1, party_loyalty := none,
              bills_sponsored := 0, debate_speeches := 0 },
            { slug := "e", party := "Q", attendance := some 1, party_loyalty := none,
              bills_sponsored := 0, debate_speeches := 0 }] }
        "party" "P" "Q").metrics =
      (if (withSelf "a" [
            { slug := "a", party := "P", attendance := some 1, party_loyalty := none,
              bills_sponsored := 0, debate_speeches := 0 },
            { slug := "b", party := "P", attendance := some 1, party_loyalty := none,
              bills_sponsored := 0, debate_speeches := 0 },
            { slug := "c", party := "Q", attendance := some 1, party_loyalty := none,
              bills_sponsored := 0, debate_speeches := 0 },
            { slug := "d", party := "Q", attendance := some 1, party_loyalty := none,
              bills_sponsored := 0, debate_speeches := 0 },
            { slug := "e", party := "Q", attendance := some 1, party_loyalty := none,
              bills_sponsored := 0, debate_speeches := 0 }]
            (groupFiltered [
            { slug := "a", party := "P", attendance := some 1, party_loyalty := none,
              bills_sponsored := 0, debate_speeches := 0 },
            { slug := "b", party := "P", attendance := some 1, party_loyalty := none,
              bills_sponsored := 0, debate_speeches := 0 },
            { slug := "c", party := "Q", attendance := some 1, party_loyalty := none,
              bills_sponsored := 0, debate_speeches := 0 },
            { slug := "d", party := "Q", attendance := some 1, party_loyalty := none,
              bills_sponsored := 0, debate_speeches := 0 },
            { slug := "e", party := "Q", attendance := some 1, party_loyalty := none,
              bills_sponsored := 0, debate_speeches := 0 }] "party" "P" "Q")).length < 5
       then [
            { slug := "a", party := "P", attendance := some 1, party_loyalty := none,
              bills_sponsored := 0, debate_speeches := 0 },
            { slug := "b", party := "P", attendance := some 1, party_loyalty := none,
              bills_sponsored := 0, debate_speeches := 0 },
            { slug := "c", party := "Q", attendance := some 1, party_loyalty := none,
              bills_sponsored := 0, debate_speeches := 0 },
            { slug := "d", party := "Q", attendance := some 1, party_loyalty := none,
              bills_sponsored := 0, debate_speeches := 0 },
            { slug := "e", party := "Q", attendance := some 1, party_loyalty := none,
              bills_sponsored := 0, debate_speeches := 0 }]
       else withSelf "a" [
            { slug := "a", party := "P", attendance := some 1, party_loyalty := none,
              bills_sponsored := 0, debate_speeches := 0 },
            { slug := "b", party := "P", attendance := some 1, party_loyalty := none,
              bills_sponsored := 0, debate_speeches := 0 },
            { slug := "c", party := "Q", attendance := some 1, party_loyalty := none,
              bills_sponsored := 0, debate_speeches := 0 },
            { slug := "d", party := "Q", attendance := some 1, party_loyalty := none,
              bills_sponsored := 0, debate_speeches := 0 },
            { slug := "e", party := "Q", attendance := some 1, party_loyalty := none,
              bills_sponsored := 0, debate_speeches := 0 }]
            (groupFiltered [
            { slug := "a", party := "P", attendance := some 1, party_loyalty := none,
              bills_sponsored := 0, debate_speeches := 0 },
            { slug := "b", party := "P", attendance := some 1, party_loyalty := none,
              bills_sponsored := 0, debate_speeches := 0 },
            { slug := "c", party := "Q", attendance := some 1, party_loyalty := none,
              bills_sponsored := 0, debate_speeches := 0 },
            { slug := "d", party := "Q", attendance := some 1, party_loyalty := none,
              bills_sponsored := 0, debate_speeches := 0 },
            { slug := "e", party := "Q", attendance := some 1, party_loyalty := none,
              bills_sponsored := 0, debate_speeches := 0 }] "party" "P" "Q")) ∧
    (∃ m ∈ (filter_table_by_group "a"
        { metrics := [
            { slug := "a", party := "P", attendance := some 1, party_loyalty := none,
              bills_sponsored := 0, debate_speeches := 0 },
            { slug := "b", party := "P", attendance := some 1, party_loyalty := none,
              bills_sponsored := 0, debate_speeches := 0 },
            { slug := "c", party := "Q", attendance := some 1, party_loyalty := none,
              bills_sponsored := 0, debate_speeches := 0 },
            { slug := "d", party := "Q", attendance := some 1, party_loyalty := none,
              bills_sponsored := 0, debate_speeches := 0 },
            { slug := "e", party := "Q", attendance := some 1, party_loyalty := none,
              bills_sponsored := 0, debate_speeches := 0 }] }
        "party" "P" "Q").metrics, m.slug = "a") :=
  ⟨(filter_table_by_group_staged "a" _ "party" "P" "Q").1,
   (filter_table_by_group_staged "a" _ "party" "P" "Q").2.2
     ⟨{ slug := "a", party := "P", attendance := some 1, party_loyalty := none,
        bills_sponsored := 0, debate_speeches := 0 }, by simp, rfl⟩⟩

/-- **C6** — Cache round trip: `write(k, v, ttl)` followed by `read(k)` returns
`v` unchanged while the current time is at most the record's `expires_at`
(`now + ttl`); once the current time is strictly past `expires_at`, `read`
returns `None` while `read_stale` still returns the original `v`. -/
theorem cache_write_read_round_trip
    (v : Json) (ttl t0 t : ℤ) (u : String) :
    (t ≤ t0 + ttl →
      CacheEntry.read (FileContent.valid (CacheEntry.write v ttl t0 u)) t =
        Except.ok (some v)) ∧
    (t0 + ttl < t →
      CacheEntry.read (FileContent.valid (CacheEntry.write v ttl t0 u)) t =
        Except.ok none) ∧
    CacheEntry.readStale (FileContent.valid (CacheEntry.write v ttl t0 u)) =
      Except.ok (some v) := by
  refine ⟨?_, ?_, ?_⟩
  · intro h
    simp [CacheEntry.read, CacheEntry.write, pySubscript, jsonLookup,
      fromisoformat]
    omega
  · intro h
    simp [CacheEntry.read, CacheEntry.write, pySubscript, jsonLookup,
      fromisoformat]
    omega
  · rfl

/-- Witness for C6 at `v = Json.num 7`, `ttl = 10`, `t0 = 0`. -/
theorem cache_write_read_round_trip_witness :
    CacheEntry.read (FileContent.valid (CacheEntry.write (Json.num 7) 10 0 "")) 5 =
      Except.ok (some (Json.num 7)) ∧
    CacheEntry.read (FileContent.valid (CacheEntry.write (Json.num 7) 10 0 "")) 11 =
      Except.ok none ∧
    CacheEntry.readStale (FileContent.valid (CacheEntry.write (Json.num 7) 10 0 "")) =
      Except.ok (some (Json.num 7)) :=
  ⟨(cache_write_read_round_trip (Json.num 7) 10 0 5 "").1 (by decide),
   (cache_write_read_round_trip (Json.num 7) 10 0 11 "").2.1 (by decide),
   (cache_write_read_round_trip (Json.num 7) 10 0 11 "").2.2⟩

/-- **C2 counterexample** — the claim "`read` never raises for any stored file
content" is false: a file holding the syntactically valid JSON record `{}`
(an empty mapping, hence no `expires_at` field) makes `CacheEntry.read` raise
`KeyError` to the caller. -/
theorem cache_read_raises_on_empty_record :
    CacheEntry.read (FileContent.valid (Json.obj [])) 0 =
      Except.error PyError.keyError := rfl

/-- **C2 (amended)** — `read` and `read_stale` report a missing file, an
unreadable file, or stored content that is not syntactically valid JSON as an
absent result (`None`), identically to a cache miss, and `read_stale` never
raises on a record whose top level is a mapping; however a syntactically valid
JSON record that is not a well-formed cache record can raise (see the
counterexample). -/
theorem cache_read_miss_like_cases (now : ℤ) (fields : List (String × Json)) :
    CacheEntry.read FileContent.missing now = Except.ok none ∧
    CacheEntry.read FileContent.unreadable now = Except.ok none ∧
    CacheEntry.read FileContent.malformed now = Except.ok none ∧
    CacheEntry.readStale FileContent.missing = Except.ok none ∧
    CacheEntry.readStale FileContent.unreadable = Except.ok none ∧
    CacheEntry.readStale FileContent.malformed = Except.ok none ∧
    CacheEntry.readStale (FileContent.valid (Json.obj fields)) =
      Except.ok (jsonLookup fields "data") :=
  ⟨rfl, rfl, rfl, rfl, rfl, rfl, rfl⟩

/-- **C7** — `compute_attendance` on a non-empty eligible vote list returns
(count of `"Yes"`/`"No"` ballots) / (count of eligible votes) × 100 rounded to
one decimal; `"Didn't vote"` and `"Paired"` ballots are excluded from the
numerator.  Ballots `[Yes, No, Paired, Didn't vote]` against 4 eligible votes
give exactly 50.0. -/
theorem compute_attendance_formula (ballots : List AttBallot)
    (session_votes : List SessionVote) (start_date : Option ℤ) :
    (eligibleVotes session_votes start_date ≠ [] →
      compute_attendance ballots session_votes start_date =
        pyRound1 ((ballots.countP (fun b => b.ballot == "Yes" || b.ballot == "No") : ℚ) /
          ((eligibleVotes session_votes start_date).length : ℚ) * 100)) ∧
    compute_attendance
        [{ ballot := "Yes" }, { ballot := "No" }, { ballot := "Paired" },
         { ballot := "Didn\x27t vote" }]
        [{ date := none }, { date := none }, { date := none }, { date := none }]
        none = 50 := by
  constructor
  · intro h
    have hsv : session_votes ≠ [] := by
      intro he
      subst he
      apply h
      cases start_date <;> rfl
    have hlen : ¬(eligibleVotes session_votes start_date).length = 0 := by
      simpa [List.length_eq_zero] using h
    simp only [compute_attendance, if_neg hsv, if_neg hlen]
  · have hred : compute_attendance
        [{ ballot := "Yes" }, { ballot := "No" }, { ballot := "Paired" },
         { ballot := "Didn\x27t vote" }]
        [{ date := none }, { date := none }, { date := none }, { date := none }]
        none = pyRound1 (((2 : ℕ) : ℚ) / ((4 : ℕ) : ℚ) * 100) := rfl
    rw [hred]
    have h50 : ((2 : ℕ) : ℚ) / ((4 : ℕ) : ℚ) * 100 = 50 := by norm_num
    rw [h50]
    norm_num [pyRound1, pyRound, ratFloor]

/-- Witness for C7: one eligible vote, no ballots. -/
theorem compute_attendance_formula_witness :
    compute_attendance [] [{ date := some 0 }] none =
      pyRound1 ((([] : List AttBallot).countP
          (fun b => b.ballot == "Yes" || b.ballot == "No") : ℚ) /
        ((eligibleVotes [{ date := some 0 }] none).length : ℚ) * 100) :=
  (compute_attendance_formula [] [{ date := some 0 }] none).1 (by decide)

/-- **C3 counterexample** — the claim "for every affiliated entity, zero
attributable ballots — including the empty ballot list — gives an absent
result" is false: an affiliated politician with an empty ballot list gets
`0.0`, not `None` (`compute_party_loyalty` returns `0.0` from its
`if not ballots` guard before any attributability analysis). -/
theorem compute_party_loyalty_empty_ballots_zero :
    compute_party_loyalty (fun _ => none) [] "Liberal" = some 0 := by decide

/-- **C3 (amended)** — `compute_party_loyalty` returns `None` for an
unaffiliated/Independent entity regardless of ballots; for an affiliated
entity it returns `0.0` (not `None`) when the ballot list is empty or when no
ballot yields a resolvable non-`Paired` vote number, and returns `None`
exactly when the vote-detail tally processes zero attributable votes (party
position missing, all free votes, or all detail fetches failed). -/
theorem compute_party_loyalty_absent_cases (details : String → Option VoteDetail)
    (ballots : List LoyaltyBallot) (party : String) :
    ((party = "" ∨ strLower party = "independent" ∨ strLower party = "ind.") →
      compute_party_loyalty details ballots party = none) ∧
    (¬(party = "" ∨ strLower party = "independent" ∨ strLower party = "ind.") →
      (ballots = [] → compute_party_loyalty details ballots party = some 0) ∧
      (ballots ≠ [] → (collectVoteNumbers ballots).1 = [] →
        compute_party_loyalty details ballots party = some 0) ∧
      (ballots ≠ [] → (collectVoteNumbers ballots).1 ≠ [] →
        (loyaltyCounts (collectVoteNumbers ballots).2
          (batchDetails details (collectVoteNumbers ballots).1) party).2 = 0 →
        compute_party_loyalty details ballots party = none)) := by
  constructor
  · intro h
    unfold compute_party_loyalty
    rw [if_pos h]
  · intro h
    refine ⟨?_, ?_, ?_⟩
    · intro hb
      unfold compute_party_loyalty
      rw [if_neg h, if_pos hb]
    · intro hb hv
      simp [compute_party_loyalty, h, hb, hv]
    · intro hb hv ht
      simp [compute_party_loyalty, h, hb, hv, ht]

/-- Witness for C3 (amended), covering all four branches on concrete inputs. -/
theorem compute_party_loyalty_absent_cases_witness :
    compute_party_loyalty (fun _ => none)
      [{ vote_url := "/votes/45-1/69/", ballot := "Yes" }] "Independent" = none ∧
    compute_party_loyalty (fun _ => none) [] "NDP" = some 0 ∧
    compute_party_loyalty (fun _ => none)
      [{ vote_url := "", ballot := "Yes" }] "NDP" = some 0 ∧
    compute_party_loyalty (fun _ => none)
      [{ vote_url := "/votes/45-1/69/", ballot := "Yes" }] "NDP" = none :=
  ⟨(compute_party_loyalty_absent_cases (fun _ => none)
      [{ vote_url := "/votes/45-1/69/", ballot := "Yes" }] "Independent").1 (by decide),
   ((compute_party_loyalty_absent_cases (fun _ => none) [] "NDP").2 (by decide)).1 rfl,
   ((compute_party_loyalty_absent_cases (fun _ => none)
      [{ vote_url := "", ballot := "Yes" }] "NDP").2 (by decide)).2.1
     (by decide) (by decide),
   ((compute_party_loyalty_absent_cases (fun _ => none)
      [{ vote_url := "/votes/45-1/69/", ballot := "Yes" }] "NDP").2 (by decide)).2.2
     (by decide) (by decide) (by decide)⟩

/-- A concrete four-row rankings table used to witness the distribution-shape
theorem: speech counts `[0,1,3,2]` (observed max 3) and attendance values
`[20,40,100,60]` (spanning 20–100). -/
def distTable : RankingsTable :=
  { metrics := [
      { slug := "a", party := "L", attendance := some 20, party_loyalty := none,
        bills_sponsored := 0, debate_speeches := 0 },
      { slug := "b", party := "L", attendance := some 40, party_loyalty := none,
        bills_sponsored := 1, debate_speeches := 1 },
      { slug := "c", party := "L", attendance := some 100, party_loyalty := none,
        bills_sponsored := 2, debate_speeches := 3 },
      { slug := "d", party := "L", attendance := some 60, party_loyalty := none,
        bills_sponsored := 3, debate_speeches := 2 }] }

/-- **C9** — `compute_distributions_for_mp` per-metric bucket shape: for an
integer-valued metric whose observed maximum (truncated) is below the bucket
count the result has exactly `max+1` buckets; otherwise it has exactly
`num_buckets` buckets (with a unit span substituted when `max = min`); and the
result is `None` when the population has no values for the metric, when the
subject is absent from the table, or when the subject lacks a value. -/
theorem compute_distributions_shape (slug : String) (table : RankingsTable)
    (num_buckets : ℕ) (metric : Metric) :
    (∀ mp, table.metrics.find? (fun m => m.slug == slug) = some mp →
      mp.get metric ≠ none →
      table.metrics.filterMap (fun m => m.get metric) ≠ [] →
      ((isIntegerMetric metric ∧
          pyTrunc (listMax (table.metrics.filterMap (fun m => m.get metric))) <
            (num_buckets : ℤ)) →
        Option.map (fun d => d.buckets.length)
            (compute_distributions_for_mp slug table num_buckets metric) =
          some (pyTrunc (listMax (table.metrics.filterMap (fun m => m.get metric))) + 1).toNat) ∧
      (¬ (isIntegerMetric metric ∧
          pyTrunc (listMax (table.metrics.filterMap (fun m => m.get metric))) <
            (num_buckets : ℤ)) →
        Option.map (fun d => d.buckets.length)
            (compute_distributions_for_mp slug table num_buckets metric) =
          some num_buckets)) ∧
    (table.metrics.filterMap (fun m => m.get metric) = [] →
      compute_distributions_for_mp slug table num_buckets metric = none) ∧
    (table.metrics.find? (fun m => m.slug == slug) = none →
      compute_distributions_for_mp slug table num_buckets metric = none) ∧
    (∀ mp, table.metrics.find? (fun m => m.slug == slug) = some mp →
      mp.get metric = none →
      compute_distributions_for_mp slug table num_buckets metric = none) := by
  refine ⟨?_, ?_, ?_, ?_⟩
  · intro mp hfind hget hne
    cases hval : mp.get metric with
    | none => exact absurd hval hget
    | some mp_val =>
      constructor
      · intro hcond
        simp only [compute_distributions_for_mp, hfind, hval, hne, if_neg hne]
        rw [if_pos hcond]
        simp [foldl_pyListIncr_length, List.length_replicate]
      · intro hcond
        simp only [compute_distributions_for_mp, hfind, hval, hne, if_neg hne]
        rw [if_neg hcond]
        simp [foldl_pyListIncr_length, List.length_replicate]
  · intro h
    simp [compute_distributions_for_mp, h]
  · intro h
    by_cases hF : table.metrics.filterMap (fun m => m.get metric) = []
    · simp [compute_distributions_for_mp, hF]
    · simp [compute_distributions_for_mp, h, hF]
  · intro mp hfind hget
    by_cases hF : table.metrics.filterMap (fun m => m.get metric) = []
    · simp [compute_distributions_for_mp, hF]
    · simp [compute_distributions_for_mp, hfind, hget, hF]

/-- Witness for C9 on `distTable`: integer metric with observed max 3 and
bucket count 20 gives exactly 4 buckets; the continuous attendance metric
spanning [20,100] gives exactly 20 bins. -/
theorem compute_distributions_shape_witness :
    Option.map (fun d => d.buckets.length)
        (compute_distributions_for_mp "a" distTable 20 Metric.debate_speeches) =
      some 4 ∧
    Option.map (fun d => d.buckets.length)
        (compute_distributions_for_mp "a" distTable 20 Metric.attendance) =
      some 20 :=
  ⟨(((compute_distributions_shape "a" distTable 20 Metric.debate_speeches).1
      { slug := "a", party := "L", attendance := some 20, party_loyalty := none,
        bills_sponsored := 0, debate_speeches := 0 }
      (by decide) (by decide) (by decide)).1 (by decide)).trans (by decide),
   (((compute_distributions_shape "a" distTable 20 Metric.attendance).1
      { slug := "a", party := "L", attendance := some 20, party_loyalty := none,
        bills_sponsored := 0, debate_speeches := 0 }
      (by decide) (by decide) (by decide)).2 (by decide))⟩

end ParlCards
